import Mathlib

/-!
Verification of the VC (vector-compiler) driver pipeline and option-resolution
engine of `IGC/VectorCompiler/lib/Driver/Driver.cpp`.

The driver code is shallowly embedded below.  External LLVM/IGC library
entry points (IR parsing, the option table's `ParseArgs`, command-line
tokenization, triple architecture classification, target-machine factory,
the pass pipelines) are modelled as explicit function parameters, so every
theorem quantifies over all possible behaviors of those externals.  String
manipulation helpers (`StringRef::trim`, `split`, `startswith`,
`consume_front`, lowercase) are re-implemented structurally on `String.data`
so that all definitions are executable and kernel-reducible.

`IGC_ASSERT` / `IGC_ASSERT_MESSAGE` are modelled as aborting the computation
(a distinguished non-value outcome): they are internal-consistency checks,
not recoverable errors, and an assert-enabled build terminates there.
-/

namespace VC

/-- Structural model of `StringRef::startswith`. -/
def strStartsWith (s p : String) : Bool := p.data.isPrefixOf s.data

/-- Trim of a character list: drop whitespace from both ends. -/
def charListTrim (l : List Char) : List Char :=
  ((l.dropWhile Char.isWhitespace).reverse.dropWhile Char.isWhitespace).reverse

/-- Structural model of `StringRef::trim`. -/
def strTrim (s : String) : String := ⟨charListTrim s.data⟩

/-- Helper for comma splitting: accumulates the current piece in reverse. -/
def splitOnCommaAux (l : List Char) (cur : List Char) : List String :=
  match l with
  | [] => [⟨cur.reverse⟩]
  | c :: rest =>
      if c = ',' then ⟨cur.reverse⟩ :: splitOnCommaAux rest []
      else splitOnCommaAux rest (c :: cur)

/-- Split a string at commas, keeping empty pieces (they are filtered
separately, as `StringRef::split` with `KeepEmpty=false` does). -/
def splitOnComma (s : String) : List String := splitOnCommaAux s.data []

/-- Drop the first `n` characters of a string (`StringRef::drop_front`). -/
def strDrop (s : String) (n : Nat) : String := ⟨s.data.drop n⟩

/-- Lowercase a string (`StringRef::lower`). -/
def strToLower (s : String) : String := ⟨s.data.map Char.toLower⟩

/-- The error taxonomy of `vc::Status` as used by `Driver.cpp`:
`InvalidModuleError`, `BadBitcodeError`, `TargetMachineError`,
`OptionError{text, isInternal}`, `NotVCError`. -/
inductive VCError where
  | invalidModule
  | badBitcode (msg : String)
  | targetMachine
  | optionError (badOpt : String) (isInternal : Bool)
  | notVC
  deriving DecidableEq, Repr

/-- Abstract stand-in for an `llvm::Module`; the driver treats modules
opaquely, so a bare index suffices. -/
abbrev IRModule := Nat

/-- Outcome of a module-loading routine.  `undefinedAccess` marks the point
where the source evaluates `*ExpModule.get()` on an `Expected` in error
state: a checked-access assertion failure (asserts build) or undefined
behavior (release build) — in either case not a defined return. -/
inductive LoadOutcome where
  | ok (m : IRModule)
  | err (e : VCError)
  | undefinedAccess
  deriving DecidableEq, Repr

/-- Embedding of `getModuleFromLLVMText` (Driver.cpp:71-86).  The external
textual IR parser `llvm::parseIR` and the structural verifier
`llvm::verifyModule` are parameters (`verifyModule` returns `true` when the
module is broken, as in LLVM).  The source is:

    Expected<...> ExpModule = llvm::parseIR(BufferRef, Err, C);
    if (!ExpModule)
      Err.print("getModuleLL", errs());          // diagnostics only
    if (verifyModule(*ExpModule.get()))          // unchecked access!
      return make_error<vc::InvalidModuleError>();
    return ExpModule;

When parsing fails the function prints diagnostics but then dereferences
the failed `Expected` instead of returning; there is no defined path that
produces a module-parse error. -/
def getModuleFromLLVMText (parseIR : String → Option IRModule)
    (verifyModule : IRModule → Bool) (input : String) : LoadOutcome :=
  match parseIR input with
  | none => .undefinedAccess
  | some m =>
      if verifyModule m then .err .invalidModule
      else .ok m

/-- Embedding of `overrideTripleWithVC` (Driver.cpp:136-143).  The parsed
architecture width of the raw triple (`Triple::isArch32Bit`, an external
LLVM classification) is a parameter. -/
def overrideTripleWithVC (isArch32Bit : String → Bool)
    (TripleStr : String) : String :=
  let Is32Bit := isArch32Bit TripleStr
  let Is32Bit := if strStartsWith TripleStr "genx32" then true else Is32Bit
  if Is32Bit then "genx32-unknown-unknown" else "genx64-unknown-unknown"

/-- File types accepted by the Input Loader (`vc::FileType`). -/
inductive FileType where
  | SPIRV
  | LLVM_TEXT
  | LLVM_BINARY
  deriving DecidableEq, Repr

/-- Optimizer level (`vc::OptimizerLevel`). -/
inductive OptimizerLevel where
  | None
  | Full
  deriving DecidableEq, Repr

/-- Output-binary kind (`vc::BinaryKind`). -/
inductive BinaryKind where
  | CM
  | OpenCL
  | ZE
  deriving DecidableEq, Repr

/-- Floating-point fusion mode (`llvm::FPOpFusion::FPOpFusionMode`). -/
inductive FPOpFusionMode where
  | Standard
  | Fast
  | Strict
  deriving DecidableEq, Repr

/-- Tri-state override flag with `Enable` and `Disable` cases plus a default
case, matching the enums consumed by `getDefaultOverridableFlag`. -/
inductive TriStateFlag where
  | Auto
  | Enable
  | Disable
  deriving DecidableEq, Repr

/-- The flat resolved configuration `vc::CompileOptions` with the fields
read or written by Driver.cpp.  Pointer-valued members (`Dumper`,
`ShaderOverrider`, `WATable`) are modelled by presence only.  The Lean
field defaults are for building concrete records; the fill functions
receive the default-constructed object explicitly. -/
structure CompileOptions where
  FType : FileType := .SPIRV
  OptLevel : OptimizerLevel := .Full
  Binary : BinaryKind := .OpenCL
  CPUStr : String := ""
  FeaturesString : String := ""
  LLVMOptions : String := ""
  StatsFile : String := ""
  StackMemSize : Option Nat := none
  AllowFPOpFusion : FPOpFusionMode := .Standard
  NoVecDecomp : Bool := false
  EmitExtendedDebug : Bool := false
  EmitDebuggableKernels : Bool := false
  DisableStructSplitting : Bool := false
  NoJumpTables : Bool := false
  TranslateLegacyMemoryIntrinsics : Bool := false
  DisableFinalizerMsg : Bool := false
  IsLargeGRFMode : Bool := false
  UsePlain2DImages : Bool := false
  EnablePreemption : Bool := false
  HasL1ReadOnlyCache : Bool := false
  HasLocalMemFenceSupress : Bool := false
  DumpIsa : Bool := false
  DumpIR : Bool := false
  DumpAsm : Bool := false
  DumpDebugInfo : Bool := false
  TimePasses : Bool := false
  ShowStats : Bool := false
  UseBindlessBuffers : Bool := false
  NoOptFinalizerMode : TriStateFlag := .Auto
  DisableLRCoalescingMode : TriStateFlag := .Auto
  ForceDebugInfoValidation : Bool := false
  ForceLiveRangesLocalizationForAccUsage : Bool := false
  ForceDisableNonOverlappingRegionOpt : Bool := false
  SaveStackCallLinkage : Bool := false
  FCtrl : Nat := 0
  WATable : Option Unit := none
  Dumper : Bool := false
  ShaderOverrider : Bool := false
  deriving DecidableEq, Repr

/-- Option-category flag bits of `IGC::options::Flags` (the concrete bit
values live in the external option table; only distinctness matters). -/
def VCApiOption : Nat := 1

/-- IGC-shared API category flag bit. -/
def IGCApiOption : Nat := 2

/-- Deprecated cmc-compatibility API category flag bit. -/
def IgcmcApiOption : Nat := 4

/-- VC internal-option category flag bit. -/
def VCInternalOption : Nat := 8

/-- IGC-shared internal category flag bit. -/
def IGCInternalOption : Nat := 16

/-- Option identifiers of the external option tables (`IGC::options::api`
and `IGC::options::internal` ID enums), as distinct naturals. -/
def OPT_UNKNOWN : Nat := 0

/-- Positional-input pseudo option ID. -/
def OPT_INPUT : Nat := 1

/-- Marker flag of the current API grammar. -/
def OPT_vc_codegen : Nat := 2

/-- Marker flag of the deprecated compatibility API grammar. -/
def OPT_igcmc : Nat := 3

/-- API option IDs consumed by `fillApiOptions` and `composeLLVMArgs`. -/
def OPT_no_vector_decomposition : Nat := 4

/-- API option `-emit-debug`. -/
def OPT_emit_debug : Nat := 5

/-- API option disabling struct splitting. -/
def OPT_vc_fno_struct_splitting : Nat := 6

/-- API option disabling jump tables. -/
def OPT_vc_fno_jump_tables : Nat := 7

/-- API option enabling legacy memory-intrinsic translation. -/
def OPT_vc_ftranslate_legacy_memory_intrinsics : Nat := 8

/-- API option suppressing finalizer messages. -/
def OPT_vc_disable_finalizer_msg : Nat := 9

/-- API option enabling large-register mode. -/
def OPT_large_GRF : Nat := 10

/-- API option enabling plain 2D images. -/
def OPT_vc_use_plain_2d_images : Nat := 11

/-- API option enabling preemption. -/
def OPT_vc_enable_preemption : Nat := 12

/-- API enumerated option for floating-point fusion. -/
def OPT_fp_contract : Nat := 13

/-- API enumerated option for the optimizer level. -/
def OPT_vc_optimize : Nat := 14

/-- API bare optimization-disable alias option. -/
def OPT_opt_disable_ze : Nat := 15

/-- API integer option for the stateless private memory size. -/
def OPT_vc_stateless_private_size : Nat := 16

/-- Deprecated visa-options passthrough option. -/
def OPT_igcmc_visaopts : Nat := 17

/-- Finalizer passthrough option. -/
def OPT_Xfinalizer : Nat := 18

/-- GTPin re-RA option. -/
def OPT_gtpin_rera : Nat := 19

/-- GTPin GRF-info option. -/
def OPT_gtpin_grf_info : Nat := 20

/-- GTPin scratch-area-size option. -/
def OPT_gtpin_scratch_area_size : Nat := 21

/-- Internal option IDs. -/
def OPT_dump_isa_binary : Nat := 30

/-- Internal dump-LLVM-IR option. -/
def OPT_dump_llvm_ir : Nat := 31

/-- Internal dump-asm option. -/
def OPT_dump_asm : Nat := 32

/-- Internal time-report option. -/
def OPT_ftime_report : Nat := 33

/-- Internal print-stats option. -/
def OPT_print_stats : Nat := 34

/-- Internal stats-file option. -/
def OPT_stats_file : Nat := 35

/-- Internal bindless-buffers option. -/
def OPT_intel_use_bindless_buffers_ze : Nat := 36

/-- Internal binary-format enumerated option. -/
def OPT_binary_format : Nat := 37

/-- Internal target-features option. -/
def OPT_target_features : Nat := 38

/-- Internal help option. -/
def OPT_help : Nat := 39

/-- Internal help-internal option. -/
def OPT_help_internal : Nat := 40

/-- Internal raw llvm-options passthrough option. -/
def OPT_llvm_options : Nat := 41

/-- A parsed argument (`opt::Arg`): the matched option ID, the flag bits of
its option, the flag bits of its alias option when `getAlias()` is non-null,
its rendered spelling (`getAsString`) and its value (`getValue`). -/
structure Arg where
  id : Nat
  flags : Nat := 0
  aliasFlags : Option Nat := none
  asString : String := ""
  value : String := ""
  deriving DecidableEq, Repr

/-- Model of `opt::ArgList::hasArg`. -/
def hasArg (args : List Arg) (id : Nat) : Bool := args.any (fun a => a.id == id)

/-- Model of `opt::ArgList::getLastArg` for one ID. -/
def getLastArg (args : List Arg) (id : Nat) : Option Arg :=
  (args.filter (fun a => a.id == id)).getLast?

/-- Model of `opt::ArgList::getLastArg` for two IDs. -/
def getLastArg2 (args : List Arg) (id1 id2 : Nat) : Option Arg :=
  (args.filter (fun a => a.id == id1 || a.id == id2)).getLast?

/-- Model of `opt::ArgList::getLastArg` over a list of IDs (as used with the
`UnknownIDs` template pack `OPT_UNKNOWN, OPT_INPUT`). -/
def getLastArgOfList (args : List Arg) (ids : List Nat) : Option Arg :=
  (args.filter (fun a => ids.contains a.id)).getLast?

/-- Model of `opt::ArgList::getLastArgValue` (empty default). -/
def getLastArgValue (args : List Arg) (id : Nat) : String :=
  match getLastArg args id with
  | some a => a.value
  | none => ""

/-- Model of `opt::ArgList::getAllArgValues`. -/
def getAllArgValues (args : List Arg) (id : Nat) : List String :=
  (args.filter (fun a => a.id == id)).map (fun a => a.value)

/-- Result of the external `opt::OptTable::ParseArgs` call: the parsed
argument list plus the missing-argument out-parameters. -/
structure ParseResult where
  args : List Arg
  missingArgIndex : Nat := 0
  missingArgCount : Nat := 0
  deriving Repr

/-- External collaborators of the Option Resolver: GNU command-line
tokenization, the option table's `ParseArgs`, auto-radix integer parsing
(`StringRef::getAsInteger` with radix 0, `none` on failure), and the
default-constructed `vc::CompileOptions`. -/
structure OptEnv where
  tokenize : String → List String
  ParseArgs : List String → Nat → ParseResult
  parseIntAuto : String → Option Nat
  defaults : CompileOptions

/-- Embedding of the `parseOptions` template (Driver.cpp:512-535):
missing-argument check first, then — only in strict mode — the last
unknown/input argument is reported; internal origin is derived from the
included flags. -/
def parseOptionsGeneric (ParseArgs : List String → Nat → ParseResult)
    (Argv : List String) (FlagsToInclude : Nat) (IsStrictMode : Bool) :
    Except VCError (List Arg) :=
  let IsInternal := Nat.land FlagsToInclude VCInternalOption != 0
  let InputArgs := ParseArgs Argv FlagsToInclude
  if InputArgs.missingArgCount != 0 then
    .error (.optionError (Argv.getD InputArgs.missingArgIndex "") IsInternal)
  else if IsStrictMode then
    match getLastArgOfList InputArgs.args [OPT_UNKNOWN, OPT_INPUT] with
    | some A => .error (.optionError A.asString IsInternal)
    | none => .ok InputArgs.args
  else .ok InputArgs.args

/-- Prefixed spelling of the current-grammar marker option
(`Options.getOption(OPT_vc_codegen).getPrefixedName()`). -/
def VCCodeGenOptName : String := "-vc-codegen"

/-- Prefixed spelling of the deprecated-grammar marker option. -/
def IgcmcOptName : String := "-igcmc"

/-- The `HasOption` lambda of `parseApiOptions`: exact string equality of a
token against the full option spelling. -/
def hasOption (Argv : List String) (Opt : String) : Bool :=
  Argv.any (fun ArgStr => Opt == ArgStr)

/-- Embedding of `parseApiOptions` (Driver.cpp:537-576).  The marker flags
are looked for by exact token match before any real parsing; with neither
marker present the result is `NotVCError`.  The deprecation notice printed
for `-igcmc` is a side effect only. -/
def parseApiOptions (env : OptEnv) (ApiOptions : String)
    (IsStrictMode : Bool) : Except VCError (List Arg) :=
  let Argv := env.tokenize ApiOptions
  if hasOption Argv VCCodeGenOptName then
    let FlagsToInclude := Nat.lor VCApiOption IGCApiOption
    parseOptionsGeneric env.ParseArgs Argv FlagsToInclude IsStrictMode
  else if hasOption Argv IgcmcOptName then
    let FlagsToInclude := Nat.lor IgcmcApiOption IGCApiOption
    parseOptionsGeneric env.ParseArgs Argv FlagsToInclude IsStrictMode
  else .error .notVC

/-- Embedding of `parseInternalOptions` (Driver.cpp:578-591): internal
options are always parsed with `IsStrictMode = false`. -/
def parseInternalOptions (env : OptEnv) (InternalOptions : String) :
    Except VCError (List Arg) :=
  let Argv := env.tokenize InternalOptions
  let IsStrictMode := false
  let FlagsToInclude := Nat.lor VCInternalOption IGCInternalOption
  parseOptionsGeneric env.ParseArgs Argv FlagsToInclude IsStrictMode

/-- Embedding of `makeOptionError` (Driver.cpp:593-597). -/
def makeOptionError (A : Arg) (IsInternal : Bool) : VCError :=
  .optionError A.asString IsInternal

/-- The `StringSwitch` for `-fp-contract` values. -/
def fpContractSwitch (Val : String) : Option FPOpFusionMode :=
  if Val == "on" then some .Standard
  else if Val == "fast" then some .Fast
  else if Val == "off" then some .Strict
  else none

/-- The `StringSwitch` for `-vc-optimize` values. -/
def optimizeSwitch (Val : String) : Option OptimizerLevel :=
  if Val == "none" then some .None
  else if Val == "full" then some .Full
  else none

/-- The `StringSwitch` for `-binary-format` values (case-sensitive exact
match). -/
def binaryFormatSwitch (Val : String) : Option BinaryKind :=
  if Val == "cm" then some .CM
  else if Val == "ocl" then some .OpenCL
  else if Val == "ze" then some .ZE
  else none

/-- The `OPT_fp_contract` block of `fillApiOptions`. -/
def applyFPContract (ApiOptions : List Arg) (Opts : CompileOptions) :
    Except VCError CompileOptions :=
  match getLastArg ApiOptions OPT_fp_contract with
  | none => .ok Opts
  | some A =>
      match fpContractSwitch A.value with
      | none => .error (makeOptionError A false)
      | some m => .ok { Opts with AllowFPOpFusion := m }

/-- The `OPT_vc_optimize, OPT_opt_disable_ze` block of `fillApiOptions`. -/
def applyOptimizeLevel (ApiOptions : List Arg) (Opts : CompileOptions) :
    Except VCError CompileOptions :=
  match getLastArg2 ApiOptions OPT_vc_optimize OPT_opt_disable_ze with
  | none => .ok Opts
  | some A =>
      if A.id == OPT_vc_optimize then
        match optimizeSwitch A.value with
        | none => .error (makeOptionError A false)
        | some lvl => .ok { Opts with OptLevel := lvl }
      else
        .ok { Opts with OptLevel := .None }

/-- The `OPT_vc_stateless_private_size` block of `fillApiOptions`. -/
def applyStatelessPrivateSize (env : OptEnv) (ApiOptions : List Arg)
    (Opts : CompileOptions) : Except VCError CompileOptions :=
  match getLastArg ApiOptions OPT_vc_stateless_private_size with
  | none => .ok Opts
  | some A =>
      match env.parseIntAuto A.value with
      | none => .error (makeOptionError A false)
      | some Result => .ok { Opts with StackMemSize := some Result }

/-- Embedding of `fillApiOptions` (Driver.cpp:599-663). -/
def fillApiOptions (env : OptEnv) (ApiOptions : List Arg)
    (Opts : CompileOptions) : Except VCError CompileOptions := do
  let Opts := if hasArg ApiOptions OPT_no_vector_decomposition then
    { Opts with NoVecDecomp := true } else Opts
  let Opts := if hasArg ApiOptions OPT_emit_debug then
    { Opts with EmitExtendedDebug := true, EmitDebuggableKernels := true }
    else Opts
  let Opts := if hasArg ApiOptions OPT_vc_fno_struct_splitting then
    { Opts with DisableStructSplitting := true } else Opts
  let Opts := if hasArg ApiOptions OPT_vc_fno_jump_tables then
    { Opts with NoJumpTables := true } else Opts
  let Opts := if hasArg ApiOptions OPT_vc_ftranslate_legacy_memory_intrinsics
    then { Opts with TranslateLegacyMemoryIntrinsics := true } else Opts
  let Opts := if hasArg ApiOptions OPT_vc_disable_finalizer_msg then
    { Opts with DisableFinalizerMsg := true } else Opts
  let Opts := if hasArg ApiOptions OPT_large_GRF then
    { Opts with IsLargeGRFMode := true } else Opts
  let Opts := if hasArg ApiOptions OPT_vc_use_plain_2d_images then
    { Opts with UsePlain2DImages := true } else Opts
  let Opts := if hasArg ApiOptions OPT_vc_enable_preemption then
    { Opts with EnablePreemption := true } else Opts
  let Opts ← applyFPContract ApiOptions Opts
  let Opts ← applyOptimizeLevel ApiOptions Opts
  applyStatelessPrivateSize env ApiOptions Opts

/-- The `OPT_binary_format` block of `fillInternalOptions`
(Driver.cpp:683-693): an unmatched enumerated value becomes an
`OptionError` with `IsInternal = true`. -/
def applyBinaryFormat (InternalOptions : List Arg) (Opts : CompileOptions) :
    Except VCError CompileOptions :=
  match getLastArg InternalOptions OPT_binary_format with
  | none => .ok Opts
  | some A =>
      match binaryFormatSwitch A.value with
      | none => .error (makeOptionError A true)
      | some b => .ok { Opts with Binary := b }

/-- Join a list of strings with a separator (`llvm::join`). -/
def joinSep (sep : String) : List String → String
  | [] => ""
  | [x] => x
  | x :: xs => x ++ sep ++ joinSep sep xs

/-- Embedding of `fillInternalOptions` (Driver.cpp:665-719).  The two help
options only print to the diagnostic stream and do not affect the result. -/
def fillInternalOptions (InternalOptions : List Arg)
    (Opts : CompileOptions) : Except VCError CompileOptions := do
  let Opts := if hasArg InternalOptions OPT_dump_isa_binary then
    { Opts with DumpIsa := true } else Opts
  let Opts := if hasArg InternalOptions OPT_dump_llvm_ir then
    { Opts with DumpIR := true } else Opts
  let Opts := if hasArg InternalOptions OPT_dump_asm then
    { Opts with DumpAsm := true } else Opts
  let Opts := if hasArg InternalOptions OPT_ftime_report then
    { Opts with TimePasses := true } else Opts
  let Opts := if hasArg InternalOptions OPT_print_stats then
    { Opts with ShowStats := true } else Opts
  let Opts := { Opts with
    StatsFile := getLastArgValue InternalOptions OPT_stats_file }
  let Opts := if hasArg InternalOptions OPT_intel_use_bindless_buffers_ze
    then { Opts with UseBindlessBuffers := true } else Opts
  let Opts ← applyBinaryFormat InternalOptions Opts
  let Opts := { Opts with
    FeaturesString :=
      joinSep "," (getAllArgValues InternalOptions OPT_target_features) }
  .ok Opts

/-- One iteration of the visa-options loop in `composeLLVMArgs`. -/
def addFinalizerOpts (Result : String) (ApiArgs : List Arg) (OptID : Nat) :
    String :=
  if hasArg ApiArgs OptID then
    Result ++ " -finalizer-opts=\x27"
      ++ joinSep " " (getAllArgValues ApiArgs OptID) ++ "\x27"
  else Result

/-- Embedding of `composeLLVMArgs` (Driver.cpp:721-755). -/
def composeLLVMArgs (ApiArgs InternalArgs : List Arg) : String :=
  let Result := ""
  let Result := if hasArg InternalArgs OPT_llvm_options then
    Result ++ joinSep " " (getAllArgValues InternalArgs OPT_llvm_options)
    else Result
  let Result := addFinalizerOpts Result ApiArgs OPT_igcmc_visaopts
  let Result := addFinalizerOpts Result ApiArgs OPT_Xfinalizer
  let Result := if hasArg ApiArgs OPT_gtpin_rera then
    Result ++ " -finalizer-opts=\x27-GTPinReRA\x27" else Result
  let Result := if hasArg ApiArgs OPT_gtpin_grf_info then
    Result ++ " -finalizer-opts=\x27-getfreegrfinfo -rerapostschedule\x27"
    else Result
  let Result := match getLastArg ApiArgs OPT_gtpin_scratch_area_size with
    | some A =>
        Result ++ " -finalizer-opts=\x27-GTPinScratchAreaSize "
          ++ A.value ++ "\x27"
    | none => Result
  Result

/-- Embedding of `fillOptions` (Driver.cpp:757-773). -/
def fillOptions (env : OptEnv) (ApiOptions InternalOptions : List Arg) :
    Except VCError CompileOptions := do
  let Opts := env.defaults
  let Opts ← fillApiOptions env ApiOptions Opts
  let Opts ← fillInternalOptions InternalOptions Opts
  .ok { Opts with LLVMOptions := composeLLVMArgs ApiOptions InternalOptions }

/-- Embedding of `filterUsedOptions` (Driver.cpp:780-803): keep an argument
when its option — or, if aliased, its alias's option — carries the include
flag. -/
def filterUsedOptions (InputArgs : List Arg) (IncludeFlag : Nat) : List Arg :=
  InputArgs.filter (fun InputArg =>
    let flags := match InputArg.aliasFlags with
      | some AliasFlags => AliasFlags
      | none => InputArg.flags
    Nat.land flags IncludeFlag != 0)

/-- Embedding of `filterApiOptions` (Driver.cpp:805-810). -/
def filterApiOptions (InputArgs : List Arg) : List Arg :=
  if hasArg InputArgs OPT_igcmc then
    filterUsedOptions InputArgs IgcmcApiOption
  else filterUsedOptions InputArgs VCApiOption

/-- Embedding of `vc::ParseOptions` (Driver.cpp:812-831). -/
def ParseOptions (env : OptEnv) (ApiOptions InternalOptions : String)
    (IsStrictMode : Bool) : Except VCError CompileOptions := do
  let ApiArgs ← parseApiOptions env ApiOptions IsStrictMode
  let VCApiArgs := filterApiOptions ApiArgs
  let InternalArgs ← parseInternalOptions env InternalOptions
  let VCInternalArgs := filterUsedOptions InternalArgs VCInternalOption
  fillOptions env VCApiArgs VCInternalArgs

/-- An `IGC_ASSERT` violation: an internal-consistency fault that terminates
the computation rather than producing a recoverable error. -/
inductive Fault where
  | assertViolation (msg : String)
  deriving DecidableEq, Repr

/-- Embedding of `getDefaultOverridableFlag` (Driver.cpp:212-221). -/
def getDefaultOverridableFlag (OptFlag : TriStateFlag) (Default : Bool) :
    Bool :=
  match OptFlag with
  | .Enable => true
  | .Disable => false
  | .Auto => Default

/-- The subset of `GenXBackendOptions` assigned by `createBackendOptions`.
The parameter-supplied record stands for the default-constructed object
(its defaults live in the external `vc/Support/BackendConfig.h`). -/
structure GenXBackendOptions where
  StackSurfaceMaxSize : Nat := 0
  StatelessPrivateMemSize : Nat := 0
  DebuggabilityEmitDebuggableKernels : Bool := false
  DebuggabilityForLegacyPath : Bool := false
  DebuggabilityZeBinCompatibleDWARF : Bool := false
  DebuggabilityEmitBreakpoints : Bool := false
  DebuggabilityExtendedDebug : Bool := false
  DebuggabilityValidateDWARF : Bool := false
  DisableFinalizerMsg : Bool := false
  EnableAsmDumps : Bool := false
  EnableDebugInfoDumps : Bool := false
  Dumper : Bool := false
  ShaderOverrider : Bool := false
  DisableStructSplitting : Bool := false
  ForceArrayPromotion : Bool := false
  LocalizeLRsForAccUsage : Bool := false
  DisableNonOverlappingRegionOpt : Bool := false
  FCtrl : Nat := 0
  WATable : Option Unit := none
  IsLargeGRFMode : Bool := false
  UseBindlessBuffers : Bool := false
  SaveStackCallLinkage : Bool := false
  UsePlain2DImages : Bool := false
  EnablePreemption : Bool := false
  DisableLiveRangesCoalescing : Bool := false
  deriving DecidableEq, Repr

/-- Embedding of `createBackendOptions` (Driver.cpp:225-268), assignment by
assignment in source order. -/
def createBackendOptions (BackendOpts : GenXBackendOptions)
    (Opts : CompileOptions) : GenXBackendOptions :=
  let BackendOpts := match Opts.StackMemSize with
    | some sz =>
        { BackendOpts with StackSurfaceMaxSize := sz,
                           StatelessPrivateMemSize := sz }
    | none => BackendOpts
  let BackendOpts := { BackendOpts with
    DebuggabilityEmitDebuggableKernels := Opts.EmitDebuggableKernels,
    DebuggabilityForLegacyPath :=
      (Opts.Binary != BinaryKind.CM) && Opts.EmitDebuggableKernels,
    DebuggabilityZeBinCompatibleDWARF := (Opts.Binary == BinaryKind.ZE),
    DebuggabilityEmitBreakpoints := Opts.EmitExtendedDebug }
  let IsOptLevel_O0 :=
    (Opts.OptLevel == OptimizerLevel.None) && Opts.EmitExtendedDebug
  let BackendOpts := { BackendOpts with
    DebuggabilityExtendedDebug :=
      getDefaultOverridableFlag Opts.NoOptFinalizerMode IsOptLevel_O0,
    DebuggabilityValidateDWARF := Opts.ForceDebugInfoValidation,
    DisableFinalizerMsg := Opts.DisableFinalizerMsg,
    EnableAsmDumps := Opts.DumpAsm,
    EnableDebugInfoDumps := Opts.DumpDebugInfo,
    Dumper := Opts.Dumper,
    ShaderOverrider := Opts.ShaderOverrider,
    DisableStructSplitting := Opts.DisableStructSplitting,
    ForceArrayPromotion := (Opts.Binary == BinaryKind.CM) }
  let BackendOpts := if Opts.ForceLiveRangesLocalizationForAccUsage then
    { BackendOpts with LocalizeLRsForAccUsage := true } else BackendOpts
  let BackendOpts := if Opts.ForceDisableNonOverlappingRegionOpt then
    { BackendOpts with DisableNonOverlappingRegionOpt := true }
    else BackendOpts
  let BackendOpts := { BackendOpts with
    FCtrl := Opts.FCtrl,
    WATable := Opts.WATable,
    IsLargeGRFMode := Opts.IsLargeGRFMode,
    UseBindlessBuffers := Opts.UseBindlessBuffers }
  let BackendOpts := if Opts.SaveStackCallLinkage then
    { BackendOpts with SaveStackCallLinkage := true } else BackendOpts
  { BackendOpts with
    UsePlain2DImages := Opts.UsePlain2DImages,
    EnablePreemption := Opts.EnablePreemption,
    DisableLiveRangesCoalescing :=
      getDefaultOverridableFlag Opts.DisableLRCoalescingMode false }

/-- The externally supplied embedded support modules (`vc::ExternalData`),
each modelled by its raw byte content. -/
structure ExternalData where
  OCLGenericBIFModule : String := ""
  VCEmulationBIFModule : String := ""
  VCSPIRVBuiltinsBIFModule : String := ""
  VCPrintf32BIFModule : String := ""
  VCPrintf64BIFModule : String := ""
  deriving DecidableEq, Repr

/-- The support-module slots of `GenXBackendData`. -/
structure GenXBackendData where
  OCLGeneric : String := ""
  VCEmulation : String := ""
  VCSPIRVBuiltins : String := ""
  VCPrintf : String := ""
  deriving DecidableEq, Repr

/-- Embedding of `createBackendData` (Driver.cpp:270-288): a pointer width
outside 32/64 is an assert-level internal fault; the width selects the
printf support module. -/
def createBackendData (Data : ExternalData) (PointerSizeInBits : Nat) :
    Except Fault GenXBackendData :=
  if !(PointerSizeInBits == 32 || PointerSizeInBits == 64) then
    .error (.assertViolation "only 32 and 64 bit pointers are expected")
  else
    .ok { OCLGeneric := Data.OCLGenericBIFModule,
          VCEmulation := Data.VCEmulationBIFModule,
          VCSPIRVBuiltins := Data.VCSPIRVBuiltinsBIFModule,
          VCPrintf := if PointerSizeInBits == 64 then
            Data.VCPrintf64BIFModule else Data.VCPrintf32BIFModule }

/-- Embedding of `processAuxFeature`: the per-entry body of the feature loop
in `getSubtargetFeatureString` (Driver.cpp:152-160).  The entry is trimmed
and must start with `+` or `-`; otherwise `IGC_ASSERT_MESSAGE(Disabled,
"unexpected feature format")` fires. -/
def processAuxFeature (F : String) : Except Fault (String × Bool) :=
  let Feature := strTrim F
  if strStartsWith Feature "+" then .ok (strDrop Feature 1, true)
  else if strStartsWith Feature "-" then .ok (strDrop Feature 1, false)
  else .error (.assertViolation "unexpected feature format")

/-- Model of `SubtargetFeatures::AddFeature`: append the lowercased feature
name with its enable/disable marker. -/
def addFeature (Features : List String) (name : String) (Enable : Bool) :
    List String :=
  Features ++ [(if Enable then "+" else "-") ++ strToLower name]

/-- The auxiliary-feature loop of `getSubtargetFeatureString`. -/
def collectAuxFeatures (Features : List String) :
    List String → Except Fault (List String)
  | [] => .ok Features
  | F :: rest =>
      match processAuxFeature F with
      | .error e => .error e
      | .ok (name, Enabled) =>
          collectAuxFeatures (addFeature Features name Enabled) rest

/-- Embedding of `getSubtargetFeatureString` (Driver.cpp:145-177).
`StringRef::split` is called with `KeepEmpty=false`, so empty pieces are
dropped before the loop. -/
def getSubtargetFeatureString (Opts : CompileOptions) :
    Except Fault String := do
  let Features : List String := []
  let Features ←
    if !(Opts.FeaturesString == "") then
      collectAuxFeatures Features
        ((splitOnComma Opts.FeaturesString).filter (fun x => !(x == "")))
    else pure Features
  let Features := if Opts.HasL1ReadOnlyCache then
    addFeature Features "has_l1_read_only_cache" true else Features
  let Features := if Opts.HasLocalMemFenceSupress then
    addFeature Features "supress_local_mem_fence" true else Features
  let Features := if Opts.NoVecDecomp then
    addFeature Features "disable_vec_decomp" true else Features
  let Features := if Opts.NoJumpTables then
    addFeature Features "disable_jump_tables" true else Features
  let Features := if Opts.TranslateLegacyMemoryIntrinsics then
    addFeature Features "translate_legacy_message" true else Features
  let Features := if Opts.Binary == BinaryKind.OpenCL
      || Opts.Binary == BinaryKind.ZE then
    addFeature Features "ocl_runtime" true else Features
  pure (joinSep "," Features)

/-- Code-generation optimization level (`CodeGenOpt::Level` subset used). -/
inductive CodeGenOptLevel where
  | None
  | Default
  deriving DecidableEq, Repr

/-- Embedding of `getCodeGenOptLevel` (Driver.cpp:179-183). -/
def getCodeGenOptLevel (Opts : CompileOptions) : CodeGenOptLevel :=
  if Opts.OptLevel == OptimizerLevel.None then .None else .Default

/-- The `llvm::TargetOptions` subset set by the driver. -/
structure TargetOptions where
  AllowFPOpFusion : FPOpFusionMode := .Standard
  deriving DecidableEq, Repr

/-- Embedding of `getTargetOptions` (Driver.cpp:185-189). -/
def getTargetOptions (Opts : CompileOptions) : TargetOptions :=
  { AllowFPOpFusion := Opts.AllowFPOpFusion }

/-- A constructed target machine, recording what it was built from. -/
structure TargetMachineModel where
  TripleStr : String := ""
  CPU : String := ""
  Features : String := ""
  Options : TargetOptions := {}
  OptLevel : CodeGenOptLevel := .Default
  PointerSizeInBits : Nat := 64
  deriving DecidableEq, Repr

/-- Outcome of `createTargetMachine`: a machine, the recoverable
`TargetMachineError`, or an assert-level abort. -/
inductive CreateTMOutcome where
  | ok (TM : TargetMachineModel)
  | err (e : VCError)
  | assertFailed (msg : String)
  deriving DecidableEq, Repr

/-- Embedding of `createTargetMachine` (Driver.cpp:191-210).  The target
registry lookup and the target's machine factory are external parameters;
a missing registration is the assert `"vc target was not registered"`; a
null machine from the factory is the recoverable `TargetMachineError`. -/
def createTargetMachine (lookupTarget : String → Bool)
    (mkTM : String → String → String → TargetOptions → CodeGenOptLevel →
      Option TargetMachineModel)
    (Opts : CompileOptions) (TheTriple : String) : CreateTMOutcome :=
  if !(lookupTarget TheTriple) then
    .assertFailed "vc target was not registered"
  else
    match getSubtargetFeatureString Opts with
    | .error (.assertViolation msg) => .assertFailed msg
    | .ok FeaturesStr =>
        match mkTM TheTriple Opts.CPUStr FeaturesStr (getTargetOptions Opts)
            (getCodeGenOptLevel Opts) with
        | none => .err .targetMachine
        | some TM => .ok TM

/-- The flat-binary output (`vc::cm::CompileOutput`): the captured ISA
byte buffer. -/
structure CmCompileOutput where
  IsaBinary : String := ""
  deriving DecidableEq, Repr

/-- Opaque stand-in for `GenXOCLRuntimeInfo::CompiledModuleT`, the
structured per-kernel runtime-metadata bundle. -/
abbrev OclCompiledModule := Nat

/-- The tagged result `vc::CompileOutput`: flat binary payload (CM path) or
structured per-kernel metadata bundle (OCL/ZE path). -/
inductive CompileOutput where
  | cm (Output : CmCompileOutput)
  | ocl (CompiledModule : OclCompiledModule)
  deriving DecidableEq, Repr

/-- External behavior of the populated codegen pass pipelines: the bytes the
emission pipeline writes to the capture stream, and the bundle the
`GenXOCLInfoExtractor` pass harvests. -/
structure CodeGenEnv where
  emitIsa : CompileOptions → TargetMachineModel → IRModule → String
  extractOclInfo : CompileOptions → TargetMachineModel → IRModule →
    OclCompiledModule

/-- Embedding of `runOclCodeGen` (Driver.cpp:370-390): the returned value is
the harvested per-kernel bundle (the assembly text is a diagnostic
by-product only). -/
def runOclCodeGen (cg : CodeGenEnv) (Opts : CompileOptions)
    (ExtData : ExternalData) (TM : TargetMachineModel) (M : IRModule) :
    OclCompiledModule :=
  cg.extractOclInfo Opts TM M

/-- Embedding of `runCmCodeGen` (Driver.cpp:392-405): the returned value is
the captured ISA buffer wrapped as the flat output. -/
def runCmCodeGen (cg : CodeGenEnv) (Opts : CompileOptions)
    (ExtData : ExternalData) (TM : TargetMachineModel) (M : IRModule) :
    CmCompileOutput :=
  { IsaBinary := cg.emitIsa Opts TM M }

/-- Embedding of `runCodeGen` (Driver.cpp:407-418): dispatch on the
output-binary kind alone. -/
def runCodeGen (cg : CodeGenEnv) (Opts : CompileOptions)
    (ExtData : ExternalData) (TM : TargetMachineModel) (M : IRModule) :
    CompileOutput :=
  match Opts.Binary with
  | .CM => .cm (runCmCodeGen cg Opts ExtData TM M)
  | .OpenCL => .ocl (runOclCodeGen cg Opts ExtData TM M)
  | .ZE => .ocl (runOclCodeGen cg Opts ExtData TM M)

/-- Embedding of `getModuleFromLLVMBinary` (Driver.cpp:88-109): a decoder
failure carries the decoder's message as `BadBitcodeError`; a verifier
failure is `InvalidModuleError`. -/
def getModuleFromLLVMBinary (parseBitcode : String → Except String IRModule)
    (verifyModule : IRModule → Bool) (Input : String) : LoadOutcome :=
  match parseBitcode Input with
  | .error msg => .err (.badBitcode msg)
  | .ok m => if verifyModule m then .err .invalidModule else .ok m

/-- Embedding of `getModuleFromSPIRV` (Driver.cpp:111-119): translate the
wire format, then delegate to the binary-IR path. -/
def getModuleFromSPIRV (translateSPIRV : String → List Nat → List Nat →
      Except VCError String)
    (parseBitcode : String → Except String IRModule)
    (verifyModule : IRModule → Bool) (Input : String)
    (SpecConstIds SpecConstValues : List Nat) : LoadOutcome :=
  match translateSPIRV Input SpecConstIds SpecConstValues with
  | .error e => .err e
  | .ok ir => getModuleFromLLVMBinary parseBitcode verifyModule ir

/-- Embedding of `getModule` (Driver.cpp:121-134): dispatch on the declared
format tag. -/
def getModule (translateSPIRV : String → List Nat → List Nat →
      Except VCError String)
    (parseIR : String → Option IRModule)
    (parseBitcode : String → Except String IRModule)
    (verifyModule : IRModule → Bool) (Input : String) (FType : FileType)
    (SpecConstIds SpecConstValues : List Nat) : LoadOutcome :=
  match FType with
  | .SPIRV => getModuleFromSPIRV translateSPIRV parseBitcode verifyModule
      Input SpecConstIds SpecConstValues
  | .LLVM_TEXT => getModuleFromLLVMText parseIR verifyModule Input
  | .LLVM_BINARY => getModuleFromLLVMBinary parseBitcode verifyModule Input

/-- The process-wide mutable state the driver touches: the global `cl`
option occurrences, the `TimePassesIsEnabled` toggle and the statistics
toggle. -/
structure GlobalState where
  ClOptions : List String := []
  TimePassesIsEnabled : Bool := false
  StatisticsEnabled : Bool := false
  deriving DecidableEq, Repr

/-- Result of one `vc::Compile` invocation: success, a recoverable error, or
an assert-level abort (on which no scope-exit cleanup runs). -/
inductive CompileResult where
  | ok (Output : CompileOutput)
  | error (e : VCError)
  | aborted (msg : String)
  deriving DecidableEq, Repr

/-- Discriminator for the abort outcome. -/
def CompileResult.isAborted : CompileResult → Bool
  | .aborted _ => true
  | _ => false

/-- External collaborators of `vc::Compile`.  `clParse` is the effect of
`cl::ParseCommandLineOptions` on the global option state; the pipeline
functions receive the global state they would observe through globals. -/
structure CompileEnv where
  clParse : String → List String
  translateSPIRV : String → List Nat → List Nat → Except VCError String
  parseIR : String → Option IRModule
  parseBitcode : String → Except String IRModule
  verifyModule : IRModule → Bool
  adaptModule : IRModule → IRModule
  getTargetTriple : IRModule → String
  isArch32Bit : String → Bool
  lookupTarget : String → Bool
  mkTM : String → String → String → TargetOptions → CodeGenOptLevel →
    Option TargetMachineModel
  setTriple : IRModule → String → IRModule
  setDataLayout : IRModule → TargetMachineModel → IRModule
  optimizeIR : GlobalState → CompileOptions → ExternalData →
    TargetMachineModel → IRModule → IRModule
  emitIsa : GlobalState → CompileOptions → TargetMachineModel → IRModule →
    String
  extractOclInfo : GlobalState → CompileOptions → TargetMachineModel →
    IRModule → OclCompiledModule

/-- Embedding of `vc::Compile` (Driver.cpp:434-510) with the process-wide
state passed explicitly.  `parseLLVMOptions` runs at entry; the
`ClOptGuard` scope-exit reset is applied on every return (but not on an
assert-level abort, which does not unwind); `TimePassesIsEnabled` is saved
before being forced and restored after codegen; the statistics toggle is
enabled but never reset, as in the source. -/
def Compile (env : CompileEnv) (Input : String) (Opts : CompileOptions)
    (ExtData : ExternalData) (SpecConstIds SpecConstValues : List Nat)
    (gs0 : GlobalState) : CompileResult × GlobalState :=
  let gs := { gs0 with ClOptions := env.clParse Opts.LLVMOptions }
  match getModule env.translateSPIRV env.parseIR env.parseBitcode
      env.verifyModule Input Opts.FType SpecConstIds SpecConstValues with
  | .undefinedAccess => (.aborted "unchecked Expected access", gs)
  | .err e => (.error e, { gs with ClOptions := [] })
  | .ok M0 =>
      let M := env.adaptModule M0
      let TheTriple :=
        overrideTripleWithVC env.isArch32Bit (env.getTargetTriple M)
      let M := env.setTriple M TheTriple
      match createTargetMachine env.lookupTarget env.mkTM Opts TheTriple with
      | .assertFailed msg => (.aborted msg, gs)
      | .err e => (.error e, { gs with ClOptions := [] })
      | .ok TM =>
          let M := env.setDataLayout M TM
          let TimePassesIsEnabledLocal := gs.TimePassesIsEnabled
          let gs := if Opts.TimePasses then
            { gs with TimePassesIsEnabled := true } else gs
          let gs := if Opts.ShowStats || !(Opts.StatsFile == "") then
            { gs with StatisticsEnabled := true } else gs
          let M := env.optimizeIR gs Opts ExtData TM M
          let Output := runCodeGen
            { emitIsa := env.emitIsa gs,
              extractOclInfo := env.extractOclInfo gs } Opts ExtData TM M
          let gs := { gs with TimePassesIsEnabled := TimePassesIsEnabledLocal }
          (.ok Output, { gs with ClOptions := [] })

/-- A minimal concrete option-resolver environment for evaluating the
embedding at fixed token lists and parse results. -/
def mkTestOptEnv (toks : List Arg) (missing : Nat) : OptEnv :=
  { tokenize := fun s => [s],
    ParseArgs := fun _ _ => { args := toks, missingArgIndex := 0,
                              missingArgCount := missing },
    parseIntAuto := fun _ => none,
    defaults := {} }

/-- A concrete compile environment whose external collaborators all succeed
trivially. -/
def testCompileEnv : CompileEnv :=
  { clParse := fun s => [s],
    translateSPIRV := fun s _ _ => .ok s,
    parseIR := fun _ => some 0,
    parseBitcode := fun _ => .ok 0,
    verifyModule := fun _ => false,
    adaptModule := fun m => m,
    getTargetTriple := fun _ => "",
    isArch32Bit := fun _ => false,
    lookupTarget := fun _ => true,
    mkTM := fun _ _ _ _ _ => some {},
    setTriple := fun m _ => m,
    setDataLayout := fun m _ => m,
    optimizeIR := fun _ _ _ _ m => m,
    emitIsa := fun _ _ _ _ => "",
    extractOclInfo := fun _ _ _ _ => 0 }

/-- A token classified as unknown by the option table. -/
def argUnknownFoo : Arg := { id := OPT_UNKNOWN, asString := "-foo" }

/-- A parsed `-binary-format` argument carrying the invalid value `zx`. -/
def argBinaryFormatZx : Arg :=
  { id := OPT_binary_format, flags := VCInternalOption,
    asString := "-binary-format=zx", value := "zx" }

/-- Compile options whose auxiliary feature list has an entry without an
enable/disable marker. -/
def optsBadFeature : CompileOptions := { FeaturesString := "foo" }

/-- Membership characterization of the `HasOption` exact-token test. -/
theorem hasOption_iff_mem (Argv : List String) (Opt : String) :
    hasOption Argv Opt = true ↔ Opt ∈ Argv := by
  simp only [hasOption, List.any_eq_true, beq_iff_eq]
  constructor
  · rintro ⟨x, hx, rfl⟩
    exact hx
  · intro h
    exact ⟨Opt, h, rfl⟩

/-- C1: the textual-IR loader never returns a module-parse error.  On parse
failure it prints diagnostics and then performs an unchecked access to the
failed `Expected` (no defined return at all), and on a successful parse
whose verification fails it returns `InvalidModuleError`. -/
theorem getModuleFromLLVMText_parse_failure (parseIR : String → Option IRModule)
    (verifyModule : IRModule → Bool) (input : String) :
    (parseIR input = none →
      getModuleFromLLVMText parseIR verifyModule input = .undefinedAccess) ∧
    (∀ m, parseIR input = some m → verifyModule m = true →
      getModuleFromLLVMText parseIR verifyModule input = .err .invalidModule) := by
  constructor
  · intro h
    simp [getModuleFromLLVMText, h]
  · intro m hm hv
    simp [getModuleFromLLVMText, hm, hv]

/-- Witness for C1 at concrete loader models and inputs. -/
theorem getModuleFromLLVMText_parse_failure_witness :
    getModuleFromLLVMText (fun _ => none) (fun _ => true) "not llvm ir"
        = .undefinedAccess ∧
    getModuleFromLLVMText (fun _ => some 7) (fun _ => true) "bad module"
        = .err .invalidModule :=
  ⟨(getModuleFromLLVMText_parse_failure (fun _ => none) (fun _ => true)
      "not llvm ir").1 rfl,
   (getModuleFromLLVMText_parse_failure (fun _ => some 7) (fun _ => true)
      "bad module").2 7 rfl rfl⟩

/-- C3: triple normalization is total (always one of the two canonical
forms), idempotent, and a raw triple starting with the `genx32` marker
normalizes to the 32-bit form regardless of the parsed architecture width.
The hypothesis pins the one external fact used: LLVM does not classify the
canonical 64-bit triple as a 32-bit architecture. -/
theorem overrideTripleWithVC_total_idem (isArch32Bit : String → Bool)
    (TripleStr : String)
    (h64 : isArch32Bit "genx64-unknown-unknown" = false) :
    (overrideTripleWithVC isArch32Bit TripleStr = "genx32-unknown-unknown" ∨
      overrideTripleWithVC isArch32Bit TripleStr = "genx64-unknown-unknown") ∧
    overrideTripleWithVC isArch32Bit
        (overrideTripleWithVC isArch32Bit TripleStr)
      = overrideTripleWithVC isArch32Bit TripleStr ∧
    (strStartsWith TripleStr "genx32" = true →
      overrideTripleWithVC isArch32Bit TripleStr = "genx32-unknown-unknown") := by
  have h32s : strStartsWith "genx32-unknown-unknown" "genx32" = true := by decide
  have h64s : strStartsWith "genx64-unknown-unknown" "genx32" = false := by decide
  cases hs : strStartsWith TripleStr "genx32" <;>
    cases ha : isArch32Bit TripleStr <;>
      simp [overrideTripleWithVC, hs, ha, h32s, h64s, h64]

/-- Witness for C3: a raw triple carrying the 32-bit marker but classified
as 64-bit by the (here constantly-64-bit) architecture parser. -/
theorem overrideTripleWithVC_total_idem_witness :
    (fun (_ : String) => false) "genx64-unknown-unknown" = false ∧
    ((overrideTripleWithVC (fun _ => false) "genx32-foo"
        = "genx32-unknown-unknown" ∨
      overrideTripleWithVC (fun _ => false) "genx32-foo"
        = "genx64-unknown-unknown") ∧
     overrideTripleWithVC (fun _ => false)
        (overrideTripleWithVC (fun _ => false) "genx32-foo")
       = overrideTripleWithVC (fun _ => false) "genx32-foo" ∧
     (strStartsWith "genx32-foo" "genx32" = true →
       overrideTripleWithVC (fun _ => false) "genx32-foo"
         = "genx32-unknown-unknown")) :=
  ⟨rfl, overrideTripleWithVC_total_idem (fun _ => false) "genx32-foo" rfl⟩

/-- C5: the codegen dispatcher selects its path solely by the output-binary
kind: the CM kind yields exactly the flat-binary output shape, and the
OpenCL/ZE kinds yield exactly the structured per-kernel bundle shape. -/
theorem runCodeGen_dispatch (cg : CodeGenEnv) (Opts : CompileOptions)
    (ExtData : ExternalData) (TM : TargetMachineModel) (M : IRModule) :
    ((Opts.Binary = BinaryKind.CM) ↔
      ∃ Output, runCodeGen cg Opts ExtData TM M = .cm Output) ∧
    ((Opts.Binary = BinaryKind.OpenCL ∨ Opts.Binary = BinaryKind.ZE) ↔
      ∃ Info, runCodeGen cg Opts ExtData TM M = .ocl Info) := by
  cases h : Opts.Binary <;> simp [runCodeGen, h]

/-- C7: the debuggable-kernel legacy-path backend flag is set exactly when
debuggable kernels are requested and the output kind is not CM. -/
theorem createBackendOptions_legacy_path (BackendOpts : GenXBackendOptions)
    (Opts : CompileOptions) :
    ((createBackendOptions BackendOpts Opts).DebuggabilityForLegacyPath = true)
      ↔ (Opts.EmitDebuggableKernels = true ∧ Opts.Binary ≠ BinaryKind.CM) := by
  cases hs : Opts.StackMemSize <;>
    cases h1 : Opts.ForceLiveRangesLocalizationForAccUsage <;>
      cases h2 : Opts.ForceDisableNonOverlappingRegionOpt <;>
        cases h3 : Opts.SaveStackCallLinkage <;>
          simp [createBackendOptions, hs, h1, h2, h3, and_comm]

/-- C2: with neither marker flag present as an exact token, `ParseOptions`
fails with `NotVCError`, for every behavior of the option table's parser —
so the condition is decided before and takes priority over any
unrecognized-option or missing-value error. -/
theorem ParseOptions_notVC (env : OptEnv) (ApiOptions InternalOptions : String)
    (IsStrictMode : Bool)
    (h1 : VCCodeGenOptName ∉ env.tokenize ApiOptions)
    (h2 : IgcmcOptName ∉ env.tokenize ApiOptions) :
    ParseOptions env ApiOptions InternalOptions IsStrictMode
      = .error .notVC := by
  have hh1 : hasOption (env.tokenize ApiOptions) VCCodeGenOptName = false := by
    rw [← Bool.not_eq_true, hasOption_iff_mem]
    exact h1
  have hh2 : hasOption (env.tokenize ApiOptions) IgcmcOptName = false := by
    rw [← Bool.not_eq_true, hasOption_iff_mem]
    exact h2
  simp [ParseOptions, parseApiOptions, hh1, hh2, bind, Except.bind]

/-- Witness for C2 with a token list carrying other flags but no marker. -/
theorem ParseOptions_notVC_witness :
    (VCCodeGenOptName ∉ (mkTestOptEnv [argUnknownFoo] 0).tokenize "-foo") ∧
    (IgcmcOptName ∉ (mkTestOptEnv [argUnknownFoo] 0).tokenize "-foo") ∧
    ParseOptions (mkTestOptEnv [argUnknownFoo] 0) "-foo" "" true
      = .error .notVC :=
  ⟨by decide, by decide,
   ParseOptions_notVC (mkTestOptEnv [argUnknownFoo] 0) "-foo" "" true
     (by decide) (by decide)⟩

/-- C10: grammar selection in `parseApiOptions` is decided purely by exact
string equality of a whole token with the marker spelling: a current-grammar
parse happens exactly on an exact `-vc-codegen` token, the deprecated
grammar exactly on an exact `-igcmc` token (without `-vc-codegen`), and
otherwise the result is `NotVCError` — so a token merely containing a
marker as a substring never selects a grammar. -/
theorem parseApiOptions_exact_token_match (env : OptEnv) (ApiOptions : String)
    (IsStrictMode : Bool) :
    (VCCodeGenOptName ∈ env.tokenize ApiOptions →
      parseApiOptions env ApiOptions IsStrictMode =
        parseOptionsGeneric env.ParseArgs (env.tokenize ApiOptions)
          (Nat.lor VCApiOption IGCApiOption) IsStrictMode) ∧
    (VCCodeGenOptName ∉ env.tokenize ApiOptions →
      IgcmcOptName ∈ env.tokenize ApiOptions →
      parseApiOptions env ApiOptions IsStrictMode =
        parseOptionsGeneric env.ParseArgs (env.tokenize ApiOptions)
          (Nat.lor IgcmcApiOption IGCApiOption) IsStrictMode) ∧
    (VCCodeGenOptName ∉ env.tokenize ApiOptions →
      IgcmcOptName ∉ env.tokenize ApiOptions →
      parseApiOptions env ApiOptions IsStrictMode = .error .notVC) := by
  refine ⟨?_, ?_, ?_⟩
  · intro hmem
    have hh : hasOption (env.tokenize ApiOptions) VCCodeGenOptName = true :=
      (hasOption_iff_mem _ _).mpr hmem
    simp [parseApiOptions, hh]
  · intro hno hmem
    have hh1 : hasOption (env.tokenize ApiOptions) VCCodeGenOptName = false := by
      rw [← Bool.not_eq_true, hasOption_iff_mem]
      exact hno
    have hh2 : hasOption (env.tokenize ApiOptions) IgcmcOptName = true :=
      (hasOption_iff_mem _ _).mpr hmem
    simp [parseApiOptions, hh1, hh2]
  · intro hno1 hno2
    have hh1 : hasOption (env.tokenize ApiOptions) VCCodeGenOptName = false := by
      rw [← Bool.not_eq_true, hasOption_iff_mem]
      exact hno1
    have hh2 : hasOption (env.tokenize ApiOptions) IgcmcOptName = false := by
      rw [← Bool.not_eq_true, hasOption_iff_mem]
      exact hno2
    simp [parseApiOptions, hh1, hh2]

/-- Witness for C10: a token properly containing `-vc-codegen` as a
substring selects no grammar, while an exact marker token selects the
current grammar. -/
theorem parseApiOptions_exact_token_match_witness :
    (VCCodeGenOptName ∉ ["a-vc-codegen-b"]) ∧
    parseApiOptions (mkTestOptEnv [] 0) "a-vc-codegen-b" true
      = .error .notVC ∧
    parseApiOptions (mkTestOptEnv [] 0) "-vc-codegen" true =
      parseOptionsGeneric (mkTestOptEnv [] 0).ParseArgs ["-vc-codegen"]
        (Nat.lor VCApiOption IGCApiOption) true :=
  ⟨by decide,
   (parseApiOptions_exact_token_match (mkTestOptEnv [] 0) "a-vc-codegen-b"
      true).2.2 (by decide) (by decide),
   (parseApiOptions_exact_token_match (mkTestOptEnv [] 0) "-vc-codegen"
      true).1 (by decide)⟩

/-- C4: internal-option parsing is always lenient — whenever no argument
value is missing it succeeds, whatever unknown-classified tokens the parse
produced and with no dependence on the caller's strictness flag — whereas
an API parse whose argument list retains an unknown/input-classified token
fails with an `OptionError` exactly when the strictness flag is enabled. -/
theorem internal_lenient_api_strict (env : OptEnv)
    (InternalOptions ApiOptions : String) (IsStrictMode : Bool) (A : Arg) :
    ((env.ParseArgs (env.tokenize InternalOptions)
        (Nat.lor VCInternalOption IGCInternalOption)).missingArgCount = 0 →
      parseInternalOptions env InternalOptions =
        .ok (env.ParseArgs (env.tokenize InternalOptions)
          (Nat.lor VCInternalOption IGCInternalOption)).args) ∧
    (VCCodeGenOptName ∈ env.tokenize ApiOptions →
      (env.ParseArgs (env.tokenize ApiOptions)
        (Nat.lor VCApiOption IGCApiOption)).missingArgCount = 0 →
      getLastArgOfList (env.ParseArgs (env.tokenize ApiOptions)
          (Nat.lor VCApiOption IGCApiOption)).args
          [OPT_UNKNOWN, OPT_INPUT] = some A →
      parseApiOptions env ApiOptions IsStrictMode =
        (if IsStrictMode then .error (.optionError A.asString false)
         else .ok (env.ParseArgs (env.tokenize ApiOptions)
           (Nat.lor VCApiOption IGCApiOption)).args)) := by
  constructor
  · intro hmiss
    simp [parseInternalOptions, parseOptionsGeneric, hmiss]
  · intro hmem hmiss hlast
    have hh : hasOption (env.tokenize ApiOptions) VCCodeGenOptName = true :=
      (hasOption_iff_mem _ _).mpr hmem
    have hflag :
        (Nat.land (Nat.lor VCApiOption IGCApiOption) VCInternalOption != 0)
          = false := by decide
    simp [parseApiOptions, parseOptionsGeneric, hh, hmiss, hlast, hflag]

/-- Witness for C4: an unknown token makes the internal parse succeed, the
strict API parse fail, and the lenient API parse succeed. -/
theorem internal_lenient_api_strict_witness :
    parseInternalOptions (mkTestOptEnv [argUnknownFoo] 0) "-foo"
      = .ok [argUnknownFoo] ∧
    parseApiOptions (mkTestOptEnv [argUnknownFoo] 0) "-vc-codegen" true
      = .error (.optionError "-foo" false) ∧
    parseApiOptions (mkTestOptEnv [argUnknownFoo] 0) "-vc-codegen" false
      = .ok [argUnknownFoo] := by
  refine ⟨?_, ?_, ?_⟩
  · exact (internal_lenient_api_strict (mkTestOptEnv [argUnknownFoo] 0)
      "-foo" "x" true argUnknownFoo).1 rfl
  · have h := (internal_lenient_api_strict (mkTestOptEnv [argUnknownFoo] 0)
      "-foo" "-vc-codegen" true argUnknownFoo).2 (by decide) rfl rfl
    simpa using h
  · have h := (internal_lenient_api_strict (mkTestOptEnv [argUnknownFoo] 0)
      "-foo" "-vc-codegen" false argUnknownFoo).2 (by decide) rfl rfl
    simpa using h

/-- C6: when the last `-binary-format` argument carries a value outside
the accepted set (case-sensitive exact match against `cm`, `ocl`, `ze`),
internal-option folding fails with an `OptionError` carrying the rendered
option text and marked as internal. -/
theorem fillInternalOptions_bad_binary_format (InternalOptions : List Arg)
    (Opts : CompileOptions) (A : Arg)
    (hlast : getLastArg InternalOptions OPT_binary_format = some A)
    (hcm : ¬ A.value = "cm") (hocl : ¬ A.value = "ocl")
    (hze : ¬ A.value = "ze") :
    fillInternalOptions InternalOptions Opts
      = .error (.optionError A.asString true) := by
  have hsw : binaryFormatSwitch A.value = none := by
    simp [binaryFormatSwitch, beq_iff_eq, hcm, hocl, hze]
  have habf : ∀ O : CompileOptions, applyBinaryFormat InternalOptions O
      = .error (.optionError A.asString true) := by
    intro O
    simp [applyBinaryFormat, hlast, hsw, makeOptionError]
  simp [fillInternalOptions, habf, bind, Except.bind]

/-- Witness for C6 at the `-binary-format=zx` argument of the spec
scenario. -/
theorem fillInternalOptions_bad_binary_format_witness :
    getLastArg [argBinaryFormatZx] OPT_binary_format = some argBinaryFormatZx ∧
    fillInternalOptions [argBinaryFormatZx] {}
      = .error (.optionError "-binary-format=zx" true) :=
  ⟨rfl,
   fillInternalOptions_bad_binary_format [argBinaryFormatZx] {}
     argBinaryFormatZx rfl (by decide) (by decide) (by decide)⟩

/-- The auxiliary-feature loop faults whenever some entry faults. -/
theorem collectAuxFeatures_err : ∀ (l : List String) (acc : List String),
    (∃ F ∈ l, ∃ e, processAuxFeature F = .error e) →
    ∃ e2, collectAuxFeatures acc l = .error e2 := by
  intro l
  induction l with
  | nil =>
      rintro acc ⟨F, hF, _⟩
      cases hF
  | cons G rest ih =>
      rintro acc ⟨F, hF, e, he⟩
      cases hpg : processAuxFeature G with
      | error eg => exact ⟨eg, by simp [collectAuxFeatures, hpg]⟩
      | ok p =>
          obtain ⟨nm, en⟩ := p
          rcases List.mem_cons.mp hF with rfl | hMem
          · simp [he] at hpg
          · obtain ⟨e2, h2⟩ := ih (addFeature acc nm en) ⟨F, hMem, e, he⟩
            exact ⟨e2, by simpa [collectAuxFeatures, hpg] using h2⟩

/-- C8: a feature-list entry that, after trimming, starts with neither the
enable marker `+` nor the disable marker `-` makes `createTargetMachine`
terminate in the assert-level internal-consistency fault; in particular no
target machine is ever constructed from such a feature list, for any
behavior of the registry and the machine factory. -/
theorem createTargetMachine_rejects_unmarked_feature
    (lookupTarget : String → Bool)
    (mkTM : String → String → String → TargetOptions → CodeGenOptLevel →
      Option TargetMachineModel)
    (Opts : CompileOptions) (TheTriple : String) (F : String)
    (hmem : F ∈ (splitOnComma Opts.FeaturesString).filter
      (fun x => !(x == "")))
    (hplus : strStartsWith (strTrim F) "+" = false)
    (hminus : strStartsWith (strTrim F) "-" = false) :
    ∃ msg, createTargetMachine lookupTarget mkTM Opts TheTriple
      = .assertFailed msg := by
  have hErr : processAuxFeature F
      = .error (.assertViolation "unexpected feature format") := by
    simp [processAuxFeature, hplus, hminus]
  have hne : ¬ (Opts.FeaturesString = "") := by
    intro h
    rw [h] at hmem
    rw [show ((splitOnComma "").filter (fun x => !(x == "")))
        = ([] : List String) from rfl] at hmem
    exact (List.not_mem_nil F) hmem
  have hFSb : (Opts.FeaturesString == "") = false :=
    beq_eq_false_iff_ne.mpr hne
  obtain ⟨e2, hC⟩ := collectAuxFeatures_err
    ((splitOnComma Opts.FeaturesString).filter (fun x => !(x == ""))) []
    ⟨F, hmem, _, hErr⟩
  cases e2 with
  | assertViolation msg2 =>
      have hGS : getSubtargetFeatureString Opts
          = .error (.assertViolation msg2) := by
        simp [getSubtargetFeatureString, hFSb, hC, bind, Except.bind]
      cases hlook : lookupTarget TheTriple with
      | false =>
          exact ⟨"vc target was not registered",
            by simp [createTargetMachine, hlook]⟩
      | true =>
          exact ⟨msg2, by simp [createTargetMachine, hlook, hGS]⟩

/-- Witness for C8 at the marker-less feature entry `foo`. -/
theorem createTargetMachine_rejects_unmarked_feature_witness :
    ("foo" ∈ (splitOnComma optsBadFeature.FeaturesString).filter
      (fun x => !(x == ""))) ∧
    strStartsWith (strTrim "foo") "+" = false ∧
    strStartsWith (strTrim "foo") "-" = false ∧
    (∃ msg, createTargetMachine (fun _ => true) (fun _ _ _ _ _ => some {})
      optsBadFeature "genx64-unknown-unknown" = .assertFailed msg) :=
  ⟨by decide, by decide, by decide,
   createTargetMachine_rejects_unmarked_feature (fun _ => true)
     (fun _ _ _ _ _ => some {}) optsBadFeature "genx64-unknown-unknown"
     "foo" (by decide) (by decide) (by decide)⟩

/-- C9: every `Compile` invocation leaves the process-wide option state
reset on every return path (success, load failure, target-machine failure),
restores the timing toggle to its prior value, and any run of the codegen
pipeline observes the global state produced by parsing the invocation's own
low-level option string at entry. -/
theorem Compile_global_state_guard (env : CompileEnv) (Input : String)
    (Opts : CompileOptions) (ExtData : ExternalData)
    (SpecConstIds SpecConstValues : List Nat) (gs0 : GlobalState) :
    ((Compile env Input Opts ExtData SpecConstIds SpecConstValues
        gs0).1.isAborted = false →
      (Compile env Input Opts ExtData SpecConstIds SpecConstValues
        gs0).2.ClOptions = []) ∧
    (Compile env Input Opts ExtData SpecConstIds SpecConstValues
        gs0).2.TimePassesIsEnabled = gs0.TimePassesIsEnabled ∧
    (∀ Output,
      (Compile env Input Opts ExtData SpecConstIds SpecConstValues
        gs0).1 = .ok Output →
      ∃ gsRun TM M,
        gsRun.ClOptions = env.clParse Opts.LLVMOptions ∧
        Output = runCodeGen
          { emitIsa := env.emitIsa gsRun,
            extractOclInfo := env.extractOclInfo gsRun } Opts ExtData TM M) := by
  cases hL : getModule env.translateSPIRV env.parseIR env.parseBitcode
      env.verifyModule Input Opts.FType SpecConstIds SpecConstValues with
  | undefinedAccess =>
      refine ⟨?_, ?_, ?_⟩ <;> simp [Compile, hL, CompileResult.isAborted]
  | err e =>
      refine ⟨?_, ?_, ?_⟩ <;> simp [Compile, hL, CompileResult.isAborted]
  | ok M0 =>
      cases hT : createTargetMachine env.lookupTarget env.mkTM Opts
          (overrideTripleWithVC env.isArch32Bit
            (env.getTargetTriple (env.adaptModule M0))) with
      | assertFailed msg =>
          refine ⟨?_, ?_, ?_⟩ <;>
            simp [Compile, hL, hT, CompileResult.isAborted]
      | err e =>
          refine ⟨?_, ?_, ?_⟩ <;>
            simp [Compile, hL, hT, CompileResult.isAborted]
      | ok TM =>
          refine ⟨?_, ?_, ?_⟩
          · intro _
            simp [Compile, hL, hT]
          · simp [Compile, hL, hT]
          · intro Output hOut
            simp only [Compile, hL, hT] at hOut
            refine ⟨_, TM, _, ?_, ((CompileResult.ok.injEq _ _).mp hOut).symm⟩
            cases h1 : Opts.TimePasses <;>
              cases h2 : Opts.ShowStats || !(Opts.StatsFile == "") <;>
                simp [h1, h2]

/-- Witness for C9 on a fully concrete successful invocation starting from
dirty global state. -/
theorem Compile_global_state_guard_witness :
    ((Compile testCompileEnv "in" { FType := FileType.LLVM_TEXT } {} [] []
        { ClOptions := ["old"], TimePassesIsEnabled := true }).1.isAborted
      = false) ∧
    ((Compile testCompileEnv "in" { FType := FileType.LLVM_TEXT } {} [] []
        { ClOptions := ["old"], TimePassesIsEnabled := true }).2.ClOptions
      = []) ∧
    ((Compile testCompileEnv "in" { FType := FileType.LLVM_TEXT } {} [] []
        { ClOptions := ["old"], TimePassesIsEnabled := true
        }).2.TimePassesIsEnabled = true) :=
  ⟨by decide,
   (Compile_global_state_guard testCompileEnv "in"
     { FType := FileType.LLVM_TEXT } {} [] []
     { ClOptions := ["old"], TimePassesIsEnabled := true }).1 (by decide),
   (Compile_global_state_guard testCompileEnv "in"
     { FType := FileType.LLVM_TEXT } {} [] []
     { ClOptions := ["old"], TimePassesIsEnabled := true }).2.1⟩

end VC
